import Mathlib

/-!
Verification development for the Trusty Keymaster context layer
(trusty_keymaster_context.cpp).  The C++ code is shallowly embedded:
each routine under scrutiny becomes an executable Lean function over
explicit state, and the external collaborators (blob deserialization,
AEAD primitives, key loaders, hardware key derivation) become record
fields holding arbitrary functions, so every theorem quantifies over
their behaviour.
-/

namespace TrustyKm

/-- Keymaster error codes returned by the routines modelled here.  Only
the codes that appear in trusty_keymaster_context.cpp are listed. -/
inductive KmError where
  | OK
  | INVALID_KEY_BLOB
  | INVALID_ARGUMENT
  | UNIMPLEMENTED
  | ROLLBACK_RESISTANCE_UNAVAILABLE
  | MEMORY_ALLOCATION_FAILED
  | UNKNOWN_ERROR
  | UNSUPPORTED_ALGORITHM
  | INCOMPATIBLE_ALGORITHM
  | SECURE_HW_COMMUNICATION_FAILED
  | INCOMPATIBLE_PURPOSE
  | INCOMPATIBLE_DIGEST
  | INCOMPATIBLE_PADDING_MODE
  | ROOT_OF_TRUST_ALREADY_SET
  | UNEXPECTED_NULL_POINTER
  | NO_USER_CONFIRMATION
  | KEY_REQUIRES_UPGRADE
  deriving DecidableEq, Repr

/-- Authorization tags: exactly the cases enumerated by the switch in
TrustyKeymasterContext::SetAuthorizations (the switch has no default,
so this list is the complete tag universe of that routine). -/
inductive Tag where
  | ASSOCIATED_DATA
  | AUTH_TOKEN
  | BOOTLOADER_ONLY
  | INVALID
  | MAC_LENGTH
  | NONCE
  | ROOT_OF_TRUST
  | UNIQUE_ID
  | IDENTITY_CREDENTIAL_KEY
  | ATTESTATION_APPLICATION_ID
  | ATTESTATION_CHALLENGE
  | ATTESTATION_ID_BRAND
  | ATTESTATION_ID_DEVICE
  | ATTESTATION_ID_IMEI
  | ATTESTATION_ID_MANUFACTURER
  | ATTESTATION_ID_MEID
  | ATTESTATION_ID_MODEL
  | ATTESTATION_ID_PRODUCT
  | ATTESTATION_ID_SERIAL
  | CERTIFICATE_NOT_AFTER
  | CERTIFICATE_NOT_BEFORE
  | CERTIFICATE_SERIAL
  | CERTIFICATE_SUBJECT
  | RESET_SINCE_ID_ROTATION
  | ROLLBACK_RESISTANCE
  | DEVICE_UNIQUE_ATTESTATION
  | ALLOW_WHILE_ON_BODY
  | ALL_APPLICATIONS
  | ROLLBACK_RESISTANT
  | CONFIRMATION_TOKEN
  | APPLICATION_ID
  | APPLICATION_DATA
  | BOOT_PATCHLEVEL
  | ORIGIN
  | OS_PATCHLEVEL
  | OS_VERSION
  | VENDOR_PATCHLEVEL
  | ALGORITHM
  | AUTH_TIMEOUT
  | BLOB_USAGE_REQUIREMENTS
  | BLOCK_MODE
  | CALLER_NONCE
  | DIGEST
  | EARLY_BOOT_ONLY
  | ECIES_SINGLE_HASH_MODE
  | EC_CURVE
  | KDF
  | KEY_SIZE
  | MAX_USES_PER_BOOT
  | MIN_MAC_LENGTH
  | MIN_SECONDS_BETWEEN_OPS
  | NO_AUTH_REQUIRED
  | PADDING
  | PURPOSE
  | RSA_OAEP_MGF_DIGEST
  | RSA_PUBLIC_EXPONENT
  | TRUSTED_CONFIRMATION_REQUIRED
  | TRUSTED_USER_PRESENCE_REQUIRED
  | UNLOCKED_DEVICE_REQUIRED
  | USER_SECURE_ID
  | STORAGE_KEY
  | USER_AUTH_TYPE
  | ACTIVE_DATETIME
  | ALL_USERS
  | CREATION_DATETIME
  | EXPORTABLE
  | INCLUDE_UNIQUE_ID
  | MAX_BOOT_LEVEL
  | ORIGINATION_EXPIRE_DATETIME
  | USAGE_COUNT_LIMIT
  | USAGE_EXPIRE_DATETIME
  | USER_ID
  deriving DecidableEq, Repr

/-- One keymaster_key_param_t entry.  The C union members integer,
enumerated, boolean and date_time are all modelled by the single
`integer` field; blob payloads live in `blob`. -/
structure KmParam where
  tag : Tag
  integer : Nat
  blob : List Nat
  deriving DecidableEq, Repr

/-- Parameter carrying an integer, enumerated, boolean or date value. -/
def intParam (t : Tag) (v : Nat) : KmParam := ⟨t, v, []⟩

/-- Parameter carrying a byte-blob value. -/
def blobParam (t : Tag) (b : List Nat) : KmParam := ⟨t, 0, b⟩

/-- AuthorizationSet::find followed by reading .integer of the first
entry bearing the tag (none when the tag is absent, mirroring the
index -1 case). -/
def findTagValue : List KmParam → Tag → Option Nat
  | [], _ => none
  | p :: rest, t => if p.tag = t then some p.integer else findTagValue rest t

/-- AuthorizationSet::Contains(tag, value) over an enumerated value:
true when some entry has the given tag and integer payload. -/
def containsTagValue (set : List KmParam) (t : Tag) (v : Nat) : Bool :=
  set.any fun p => p.tag = t && p.integer = v

/-- Hardware auth type bit for password authentication. -/
def HW_AUTH_PASSWORD : Nat := 1

/-- Hardware auth type bit for fingerprint authentication. -/
def HW_AUTH_FINGERPRINT : Nat := 2

/-- Compile-time configuration of the Trusty build: the two feature
switches consulted by SetAuthorizations. -/
structure BuildConfig where
  withHwwskSupport : Bool
  teeFingerprintAuthSupported : Bool
  deriving DecidableEq, Repr

/-! ## RngGate: ShouldReseedRng -/

/-- Number of ShouldReseedRng calls between periodic reseeds
(kCallsBetweenRngReseeds). -/
def kCallsBetweenRngReseeds : Nat := 32

/-- Mutable RNG bookkeeping of the context: rng_initialized_ and
calls_since_reseed_. -/
structure RngState where
  rngInitialized : Bool
  callsSinceReseed : Nat
  deriving DecidableEq, Repr

/-- TrustyKeymasterContext::ShouldReseedRng.  If the RNG was never
initialized the answer is true and the counter is untouched (early
return); otherwise the counter is pre-incremented and the answer is
whether the new counter is a multiple of kCallsBetweenRngReseeds. -/
def shouldReseedRng : RngState → Bool × RngState
  | ⟨false, c⟩ => (true, ⟨false, c⟩)
  | ⟨true, c⟩ => ((c + 1) % kCallsBetweenRngReseeds == 0, ⟨true, c + 1⟩)

/-- Run `n` consecutive ShouldReseedRng checks, collecting the answers
in order. -/
def reseedChecks : RngState → Nat → List Bool × RngState
  | s, 0 => ([], s)
  | s, n + 1 =>
    let (b, s1) := shouldReseedRng s
    let (bs, s2) := reseedChecks s1 n
    (b :: bs, s2)

theorem shouldReseedRng_uninitialized (c : Nat) :
    shouldReseedRng ⟨false, c⟩ = (true, ⟨false, c⟩) := rfl

theorem shouldReseedRng_initialized (c : Nat) :
    shouldReseedRng ⟨true, c⟩ =
      ((c + 1) % kCallsBetweenRngReseeds == 0, ⟨true, c + 1⟩) := rfl

/-- The answers of `n` checks starting initialized at counter `c`: the
k-th check (0-based) fires exactly when `c + k + 1` is a multiple of
32. -/
theorem reseedChecks_initialized (c n : Nat) :
    reseedChecks ⟨true, c⟩ n =
      ((List.range n).map fun k =>
        ((c + k + 1) % kCallsBetweenRngReseeds == 0), ⟨true, c + n⟩) := by
  induction n generalizing c with
  | zero => rfl
  | succ n ih =>
    simp only [reseedChecks, shouldReseedRng, ih (c + 1), List.range_succ_eq_map,
      List.map_cons, List.map_map]
    refine congrArg₂ Prod.mk (congrArg₂ List.cons ?_ ?_) ?_
    · have h1 : c + 0 + 1 = c + 1 := by omega
      rw [h1]
    · refine List.map_congr_left fun k _ => ?_
      simp only [Function.comp_apply]
      have h2 : c + 1 + k + 1 = c + Nat.succ k + 1 := by omega
      rw [h2]
    · have h3 : c + 1 + n = c + (n + 1) := by omega
      rw [h3]

/-! ## AuthorizationClassifier: SetAuthorizations -/

/-- Boot version / patchlevel fields of the context (boot_os_version_
and boot_os_patchlevel_, set once via SetSystemVersion). -/
structure VersionState where
  bootOsVersion : Nat
  bootOsPatchlevel : Nat
  deriving DecidableEq, Repr

/-- What one iteration of the SetAuthorizations switch does with an
entry: abort with an error, drop the entry, push (a possibly rewritten
copy of) it into hw_enforced, or push it into sw_enforced. -/
inductive TagAction where
  | reject (e : KmError)
  | drop
  | hw (p : KmParam)
  | sw (p : KmParam)
  deriving DecidableEq, Repr

/-- Switch body of TrustyKeymasterContext::SetAuthorizations, case for
one entry.  The order and grouping of cases follows the source. -/
def classifyEntry (cfg : BuildConfig) (entry : KmParam) : TagAction :=
  match entry.tag with
  -- Tags that should never appear in key descriptions.
  | .ASSOCIATED_DATA
  | .AUTH_TOKEN
  | .BOOTLOADER_ONLY
  | .INVALID
  | .MAC_LENGTH
  | .NONCE
  | .ROOT_OF_TRUST
  | .UNIQUE_ID
  | .IDENTITY_CREDENTIAL_KEY => .reject .INVALID_KEY_BLOB
  -- Tags used only to provide information for certificate creation.
  | .ATTESTATION_APPLICATION_ID
  | .ATTESTATION_CHALLENGE
  | .ATTESTATION_ID_BRAND
  | .ATTESTATION_ID_DEVICE
  | .ATTESTATION_ID_IMEI
  | .ATTESTATION_ID_MANUFACTURER
  | .ATTESTATION_ID_MEID
  | .ATTESTATION_ID_MODEL
  | .ATTESTATION_ID_PRODUCT
  | .ATTESTATION_ID_SERIAL
  | .CERTIFICATE_NOT_AFTER
  | .CERTIFICATE_NOT_BEFORE
  | .CERTIFICATE_SERIAL
  | .CERTIFICATE_SUBJECT
  | .RESET_SINCE_ID_ROTATION => .drop
  -- Unimplemented tags for which an error is returned.
  | .ROLLBACK_RESISTANCE => .reject .ROLLBACK_RESISTANCE_UNAVAILABLE
  | .DEVICE_UNIQUE_ATTESTATION => .reject .INVALID_ARGUMENT
  -- Unimplemented or obsolete tags silently ignored, tags that should
  -- not be added to blobs, and tags set later by the routine itself.
  | .ALLOW_WHILE_ON_BODY
  | .ALL_APPLICATIONS
  | .ROLLBACK_RESISTANT
  | .CONFIRMATION_TOKEN
  | .APPLICATION_ID
  | .APPLICATION_DATA
  | .BOOT_PATCHLEVEL
  | .ORIGIN
  | .OS_PATCHLEVEL
  | .OS_VERSION
  | .VENDOR_PATCHLEVEL => .drop
  -- Tags that are hardware-enforced.
  | .ALGORITHM
  | .AUTH_TIMEOUT
  | .BLOB_USAGE_REQUIREMENTS
  | .BLOCK_MODE
  | .CALLER_NONCE
  | .DIGEST
  | .EARLY_BOOT_ONLY
  | .ECIES_SINGLE_HASH_MODE
  | .EC_CURVE
  | .KDF
  | .KEY_SIZE
  | .MAX_USES_PER_BOOT
  | .MIN_MAC_LENGTH
  | .MIN_SECONDS_BETWEEN_OPS
  | .NO_AUTH_REQUIRED
  | .PADDING
  | .PURPOSE
  | .RSA_OAEP_MGF_DIGEST
  | .RSA_PUBLIC_EXPONENT
  | .TRUSTED_CONFIRMATION_REQUIRED
  | .TRUSTED_USER_PRESENCE_REQUIRED
  | .UNLOCKED_DEVICE_REQUIRED
  | .USER_SECURE_ID => .hw entry
  -- KM_TAG_STORAGE_KEY handling depends on the HWWSK feature flag.
  | .STORAGE_KEY =>
    if cfg.withHwwskSupport then .hw entry else .reject .UNIMPLEMENTED
  -- KM_TAG_USER_AUTH_TYPE: the bitmask is masked down to password
  -- (plus fingerprint when that feature is compiled in).
  | .USER_AUTH_TYPE =>
    let masked := entry.integer &&& HW_AUTH_PASSWORD
    let masked :=
      if cfg.teeFingerprintAuthSupported then
        masked ||| (entry.integer &&& HW_AUTH_FINGERPRINT)
      else masked
    .hw ⟨Tag.USER_AUTH_TYPE, masked, entry.blob⟩
  -- Keystore-enforced tags.
  | .ACTIVE_DATETIME
  | .ALL_USERS
  | .CREATION_DATETIME
  | .EXPORTABLE
  | .INCLUDE_UNIQUE_ID
  | .MAX_BOOT_LEVEL
  | .ORIGINATION_EXPIRE_DATETIME
  | .USAGE_COUNT_LIMIT
  | .USAGE_EXPIRE_DATETIME
  | .USER_ID => .sw entry

/-- Iteration of the SetAuthorizations loop over the remaining key
description, with the hw_enforced and sw_enforced accumulators in
their current (already pushed) state.  On an error case the loop
returns immediately, leaving the accumulators as they stand. -/
def setAuthorizationsLoop (cfg : BuildConfig) :
    List KmParam → List KmParam → List KmParam →
      KmError × List KmParam × List KmParam
  | [], hw, sw => (.OK, hw, sw)
  | entry :: rest, hw, sw =>
    match classifyEntry cfg entry with
    | .reject e => (e, hw, sw)
    | .drop => setAuthorizationsLoop cfg rest hw sw
    | .hw p => setAuthorizationsLoop cfg rest (hw ++ [p]) sw
    | .sw p => setAuthorizationsLoop cfg rest hw (sw ++ [p])

/-- TrustyKeymasterContext::SetAuthorizations.  Both output sets start
cleared; after a successful loop pass, ORIGIN, OS_VERSION and
OS_PATCHLEVEL are appended to hw_enforced.  The final is_valid checks
only detect allocation or structural corruption, which the embedding
cannot produce, so they always translate to OK here. -/
def setAuthorizations (cfg : BuildConfig) (vs : VersionState)
    (keyDescription : List KmParam) (origin : Nat) :
    KmError × List KmParam × List KmParam :=
  match setAuthorizationsLoop cfg keyDescription [] [] with
  | (KmError.OK, hw, sw) =>
    (KmError.OK,
      hw ++ [intParam Tag.ORIGIN origin, intParam Tag.OS_VERSION vs.bootOsVersion,
             intParam Tag.OS_PATCHLEVEL vs.bootOsPatchlevel],
      sw)
  | other => other

/-- Tags in the forbidden-in-description group of the switch. -/
def isForbiddenTag : Tag → Bool
  | .ASSOCIATED_DATA | .AUTH_TOKEN | .BOOTLOADER_ONLY | .INVALID
  | .MAC_LENGTH | .NONCE | .ROOT_OF_TRUST | .UNIQUE_ID
  | .IDENTITY_CREDENTIAL_KEY => true
  | _ => false

/-- True when the switch aborts SetAuthorizations on this entry. -/
def isErrorEntry (cfg : BuildConfig) (entry : KmParam) : Bool :=
  match classifyEntry cfg entry with
  | .reject _ => true
  | _ => false

theorem classifyEntry_forbidden (cfg : BuildConfig) (entry : KmParam)
    (h : isForbiddenTag entry.tag = true) :
    classifyEntry cfg entry = .reject .INVALID_KEY_BLOB := by
  obtain ⟨t, i, b⟩ := entry
  cases t <;> simp_all [isForbiddenTag, classifyEntry]

theorem setAuthorizationsLoop_append (cfg : BuildConfig)
    (pre rest hw sw : List KmParam)
    (hpre : ∀ q ∈ pre, isErrorEntry cfg q = false) :
    setAuthorizationsLoop cfg (pre ++ rest) hw sw =
      setAuthorizationsLoop cfg rest
        (setAuthorizationsLoop cfg pre hw sw).2.1
        (setAuthorizationsLoop cfg pre hw sw).2.2 := by
  induction pre generalizing hw sw with
  | nil => rfl
  | cons q pre ih =>
    have hq : isErrorEntry cfg q = false := hpre q (List.mem_cons_self ..)
    have hrest : ∀ r ∈ pre, isErrorEntry cfg r = false :=
      fun r hr => hpre r (List.mem_cons_of_mem _ hr)
    simp only [List.cons_append, setAuthorizationsLoop]
    cases hc : classifyEntry cfg q with
    | reject e => rw [isErrorEntry, hc] at hq; exact absurd hq (by simp)
    | drop => exact ih _ _ hrest
    | hw p => exact ih _ _ hrest
    | sw p => exact ih _ _ hrest

/-- C1 counterexample: the claim fails in two ways.  With the
description [ALGORITHM, NONCE] the call returns invalid-key-blob but
hw_enforced is left holding the already-classified ALGORITHM entry
(the output sets are cleared at entry, not on the error path); and
with [ROLLBACK_RESISTANCE, NONCE] a set containing a forbidden tag
does not return invalid-key-blob at all, because the earlier entry
aborts the loop first. -/
theorem c1_counterexample :
    setAuthorizations ⟨false, false⟩ ⟨0, 0⟩
        [intParam Tag.ALGORITHM 1, intParam Tag.NONCE 0] 0 =
      (KmError.INVALID_KEY_BLOB, [intParam Tag.ALGORITHM 1], []) ∧
    (setAuthorizations ⟨false, false⟩ ⟨0, 0⟩
        [intParam Tag.ALGORITHM 1, intParam Tag.NONCE 0] 0).2.1 ≠ [] ∧
    (setAuthorizations ⟨false, false⟩ ⟨0, 0⟩
        [intParam Tag.ROLLBACK_RESISTANCE 0, intParam Tag.NONCE 0] 0).1 ≠
      KmError.INVALID_KEY_BLOB := by decide

/-- C1 (amended): when the first error-triggering entry of the key
description bears a forbidden-in-description tag, SetAuthorizations
returns invalid-key-blob and the output sets hold exactly the entries
classified from the part of the description before that entry — in
particular both sets are empty when the forbidden tag occurs first. -/
theorem setAuthorizations_forbidden_rejects (cfg : BuildConfig)
    (vs : VersionState) (pre post : List KmParam) (p : KmParam) (origin : Nat)
    (hp : isForbiddenTag p.tag = true)
    (hpre : ∀ q ∈ pre, isErrorEntry cfg q = false) :
    setAuthorizations cfg vs (pre ++ p :: post) origin =
      (KmError.INVALID_KEY_BLOB,
        (setAuthorizationsLoop cfg pre [] []).2.1,
        (setAuthorizationsLoop cfg pre [] []).2.2) := by
  have hloop := setAuthorizationsLoop_append cfg pre (p :: post) [] [] hpre
  have hcls := classifyEntry_forbidden cfg p hp
  unfold setAuthorizations
  rw [hloop]
  simp only [setAuthorizationsLoop, hcls]

/-- C1 witness: a benign hardware-enforced entry followed by a
forbidden NONCE entry ends with invalid-key-blob and the outputs of
classifying only the benign prefix. -/
theorem setAuthorizations_forbidden_rejects_witness :
    setAuthorizations ⟨false, false⟩ ⟨1, 2⟩
        ([intParam Tag.KEY_SIZE 256] ++ intParam Tag.NONCE 0 :: []) 0 =
      (KmError.INVALID_KEY_BLOB,
        (setAuthorizationsLoop ⟨false, false⟩ [intParam Tag.KEY_SIZE 256] [] []).2.1,
        (setAuthorizationsLoop ⟨false, false⟩ [intParam Tag.KEY_SIZE 256] [] []).2.2) :=
  setAuthorizations_forbidden_rejects ⟨false, false⟩ ⟨1, 2⟩
    [intParam Tag.KEY_SIZE 256] [] (intParam Tag.NONCE 0) 0
    (by decide) (by decide)

/-- C8: while the RNG is uninitialized every check requests a reseed
(and leaves the counter alone); once initialized, each check
increments the counter once and fires exactly when the incremented
counter is a multiple of 32, so any 32 consecutive checks contain
exactly one firing request, and starting from a counter at a multiple
of 32 (as right after initialization) the request fires on the 32nd
check. -/
theorem shouldReseedRng_policy :
    (∀ c, shouldReseedRng ⟨false, c⟩ = (true, ⟨false, c⟩)) ∧
    (∀ c, shouldReseedRng ⟨true, c⟩ =
      (((c + 1) % kCallsBetweenRngReseeds == 0), ⟨true, c + 1⟩)) ∧
    (∀ c, ((reseedChecks ⟨true, c⟩ 32).1.count true) = 1) ∧
    (∀ c, c % 32 = 0 →
      (reseedChecks ⟨true, c⟩ 32).1 = List.replicate 31 false ++ [true]) := by
  refine ⟨fun c => rfl, fun c => rfl, fun c => ?_, fun c hc => ?_⟩
  · rw [reseedChecks_initialized]
    show ((List.range 32).map fun k =>
      ((c + k + 1) % kCallsBetweenRngReseeds == 0)).count true = 1
    have hmap : ((List.range 32).map fun k =>
        ((c + k + 1) % kCallsBetweenRngReseeds == 0)) =
        ((List.range 32).map fun k =>
          ((c % 32 + k + 1) % kCallsBetweenRngReseeds == 0)) := by
      refine List.map_congr_left fun k _ => ?_
      have h : (c + k + 1) % kCallsBetweenRngReseeds =
          (c % 32 + k + 1) % kCallsBetweenRngReseeds := by
        simp only [kCallsBetweenRngReseeds]
        omega
      rw [h]
    have key : ∀ r, r < 32 →
        (((List.range 32).map fun k =>
          ((r + k + 1) % kCallsBetweenRngReseeds == 0)).count true) = 1 := by
      decide
    rw [hmap]
    exact key (c % 32) (Nat.mod_lt _ (by norm_num))
  · rw [reseedChecks_initialized]
    show ((List.range 32).map fun k =>
      ((c + k + 1) % kCallsBetweenRngReseeds == 0)) = _
    have hmap : ((List.range 32).map fun k =>
        ((c + k + 1) % kCallsBetweenRngReseeds == 0)) =
        ((List.range 32).map fun k => ((k + 1) % 32 == 0)) := by
      refine List.map_congr_left fun k _ => ?_
      have h : (c + k + 1) % kCallsBetweenRngReseeds = (k + 1) % 32 := by
        simp only [kCallsBetweenRngReseeds]
        omega
      rw [h]
    rw [hmap]
    decide

/-- C8 witness: the reseed policy at concrete counters, including a
window that starts away from a multiple of 32. -/
theorem shouldReseedRng_policy_witness :
    shouldReseedRng ⟨false, 5⟩ = (true, ⟨false, 5⟩) ∧
    ((reseedChecks ⟨true, 7⟩ 32).1.count true) = 1 ∧
    (reseedChecks ⟨true, 64⟩ 32).1 = List.replicate 31 false ++ [true] :=
  ⟨shouldReseedRng_policy.1 5, shouldReseedRng_policy.2.2.1 7,
   shouldReseedRng_policy.2.2.2 64 (by decide)⟩

/-! ## RootOfTrust: SetBootParams -/

/-- keymaster_verified_boot_t. -/
inductive VbState where
  | verified
  | selfSigned
  | unverified
  | failed
  deriving DecidableEq, Repr

/-- Root-of-trust fields of the context (root_of_trust_set_,
verified_boot_state_, device_locked_, verified_boot_key_,
verified_boot_hash_). -/
structure RootOfTrustState where
  rootOfTrustSet : Bool
  verifiedBootState : VbState
  deviceLocked : Bool
  verifiedBootKey : List Nat
  verifiedBootHash : List Nat
  deriving DecidableEq, Repr

/-- TrustyKeymasterContext::SetBootParams.  A second call is rejected;
the first call stores the supplied values, then sanitizes them: a
verified or self-signed state with an empty boot key is downgraded to
unverified and unlocked, and any other state forces device_locked to
false.  The os_version and os_patchlevel arguments are ignored by the
source, so they are omitted here. -/
def setBootParams (st : RootOfTrustState) (verifiedBootKey : List Nat)
    (verifiedBootState : VbState) (deviceLocked : Bool)
    (verifiedBootHash : List Nat) : KmError × RootOfTrustState :=
  if st.rootOfTrustSet then
    (KmError.ROOT_OF_TRUST_ALREADY_SET, st)
  else
    let st1 : RootOfTrustState :=
      ⟨true, verifiedBootState, deviceLocked, [], verifiedBootHash⟩
    if verifiedBootState = VbState.verified ∨
        verifiedBootState = VbState.selfSigned then
      if verifiedBootKey ≠ [] then
        (KmError.OK, { st1 with verifiedBootKey := verifiedBootKey })
      else
        (KmError.OK, { st1 with
          verifiedBootState := VbState.unverified, deviceLocked := false })
    else
      (KmError.OK, { st1 with deviceLocked := false })

/-- C10: the first accepted SetBootParams call sanitizes the stored
root of trust rather than copying it verbatim: a verified or
self-signed state supplied with an empty boot-key buffer is stored as
unverified with device_locked false, and a state that is neither
verified nor self-signed is stored with device_locked false no matter
what flag the caller passed. -/
theorem setBootParams_sanitizes (st : RootOfTrustState) (key hash : List Nat)
    (vb : VbState) (locked : Bool) (hset : st.rootOfTrustSet = false) :
    ((vb = VbState.verified ∨ vb = VbState.selfSigned) → key = [] →
      ((setBootParams st key vb locked hash).2.verifiedBootState =
          VbState.unverified ∧
       (setBootParams st key vb locked hash).2.deviceLocked = false)) ∧
    ((vb ≠ VbState.verified ∧ vb ≠ VbState.selfSigned) →
      (setBootParams st key vb locked hash).2.deviceLocked = false) := by
  constructor
  · rintro hvb rfl
    rcases hvb with rfl | rfl <;> simp [setBootParams, hset]
  · rintro ⟨h1, h2⟩
    cases vb <;> simp_all [setBootParams]

/-- C10 witness: the sanitization at concrete inputs — a verified
state with an empty key is stored unverified and unlocked, and a
failed state is stored unlocked. -/
theorem setBootParams_sanitizes_witness :
    ((setBootParams ⟨false, VbState.failed, true, [3], [4]⟩ []
        VbState.verified true [7]).2.verifiedBootState = VbState.unverified ∧
     (setBootParams ⟨false, VbState.failed, true, [3], [4]⟩ []
        VbState.verified true [7]).2.deviceLocked = false) ∧
    (setBootParams ⟨false, VbState.verified, true, [3], [4]⟩ [5]
        VbState.failed true [7]).2.deviceLocked = false :=
  ⟨(setBootParams_sanitizes ⟨false, VbState.failed, true, [3], [4]⟩ [] [7]
      VbState.verified true rfl).1 (Or.inl rfl) rfl,
   (setBootParams_sanitizes ⟨false, VbState.verified, true, [3], [4]⟩ [5] [7]
      VbState.failed true rfl).2 (by decide)⟩

/-! ## AttestationIssuer -/

/-- keymaster_algorithm_t numeric values. -/
def KM_ALGORITHM_RSA : Nat := 1

/-- Numeric value of KM_ALGORITHM_EC. -/
def KM_ALGORITHM_EC : Nat := 3

/-- Numeric value of KM_ALGORITHM_AES. -/
def KM_ALGORITHM_AES : Nat := 32

/-- Numeric value of KM_ALGORITHM_TRIPLE_DES. -/
def KM_ALGORITHM_TRIPLE_DES : Nat := 33

/-- Numeric value of KM_ALGORITHM_HMAC. -/
def KM_ALGORITHM_HMAC : Nat := 128

/-- Attestation key slots in secure storage. -/
inductive AttestationKeySlot where
  | kRsa
  | kEcdsa
  deriving DecidableEq, Repr

/-- Slot chosen by the switch at the top of GetAttestationKey and
GetAttestationChain; none models the default branch. -/
def keySlotForAlgorithm (algorithm : Nat) : Option AttestationKeySlot :=
  if algorithm = KM_ALGORITHM_RSA then some AttestationKeySlot.kRsa
  else if algorithm = KM_ALGORITHM_EC then some AttestationKeySlot.kEcdsa
  else none

/-- External collaborators of the attestation paths: the secure
storage manager and the compile-gated soft attestation fallback. -/
structure AttestationEnv where
  secureStorageAvailable : Bool
  readKeyFromStorage : AttestationKeySlot → KmError × List Nat
  readCertChainFromStorage : AttestationKeySlot → KmError × List (List Nat)
  softAttestationFallback : Bool
  softAttestationKey : Nat → KmError × List Nat
  softAttestationChain : Nat → KmError × List (List Nat)

/-- TrustyKeymasterContext::GetAttestationKey.  Returns the error code
and the key bytes (empty on failure). -/
def getAttestationKey (env : AttestationEnv) (algorithm : Nat) :
    KmError × List Nat :=
  match keySlotForAlgorithm algorithm with
  | none => (KmError.UNSUPPORTED_ALGORITHM, [])
  | some slot =>
    if env.secureStorageAvailable = false then
      (KmError.SECURE_HW_COMMUNICATION_FAILED, [])
    else
      let r := env.readKeyFromStorage slot
      if env.softAttestationFallback = true ∧ r.1 ≠ KmError.OK then
        env.softAttestationKey algorithm
      else r

/-- TrustyKeymasterContext::GetAttestationChain.  Returns the error
code and the chain (list of certificates, empty on failure). -/
def getAttestationChain (env : AttestationEnv) (algorithm : Nat) :
    KmError × List (List Nat) :=
  match keySlotForAlgorithm algorithm with
  | none => (KmError.UNSUPPORTED_ALGORITHM, [])
  | some slot =>
    let r :=
      if env.secureStorageAvailable = false then
        (KmError.SECURE_HW_COMMUNICATION_FAILED, [])
      else
        env.readCertChainFromStorage slot
    if env.softAttestationFallback = true ∧ (r.1 ≠ KmError.OK ∨ r.2 = []) then
      env.softAttestationChain algorithm
    else r

/-- A materialized key: hw_enforced and sw_enforced sets plus key
material, as held by the keymaster Key class. -/
structure Key where
  hwEnforced : List KmParam
  swEnforced : List KmParam
  keyMaterial : List Nat
  deriving DecidableEq, Repr

/-- Key::authorizations(): the AuthProxy over hw_enforced then
sw_enforced, so lookups search hw_enforced first. -/
def keyAuthorizations (k : Key) : List KmParam :=
  k.hwEnforced ++ k.swEnforced

/-- External collaborators of certificate generation: the AttestKeyInfo
constructor outcome and the two external certificate builders. -/
structure CertEnv where
  attestKeyInfo : Option Key → List Nat → KmError
  generateAttestationCert : Key → List KmParam → KmError × List (List Nat)
  generateSelfSignedCert : Key → List KmParam → Bool → KmError × List (List Nat)

/-- TrustyKeymasterContext::GenerateAttestation. -/
def generateAttestation (env : CertEnv) (key : Key)
    (attestParams : List KmParam) (attestKey : Option Key)
    (issuerSubject : List Nat) : KmError × List (List Nat) :=
  match findTagValue (keyAuthorizations key) Tag.ALGORITHM with
  | none => (KmError.UNKNOWN_ERROR, [])
  | some keyAlgorithm =>
    if keyAlgorithm ≠ KM_ALGORITHM_RSA ∧ keyAlgorithm ≠ KM_ALGORITHM_EC then
      (KmError.INCOMPATIBLE_ALGORITHM, [])
    else
      let e := env.attestKeyInfo attestKey issuerSubject
      if e ≠ KmError.OK then (e, [])
      else env.generateAttestationCert key attestParams

/-- TrustyKeymasterContext::GenerateSelfSignedCertificate. -/
def generateSelfSignedCertificate (env : CertEnv) (key : Key)
    (certParams : List KmParam) (fakeSignature : Bool) :
    KmError × List (List Nat) :=
  match findTagValue (keyAuthorizations key) Tag.ALGORITHM with
  | none => (KmError.UNKNOWN_ERROR, [])
  | some keyAlgorithm =>
    if keyAlgorithm ≠ KM_ALGORITHM_RSA ∧ keyAlgorithm ≠ KM_ALGORITHM_EC then
      (KmError.INCOMPATIBLE_ALGORITHM, [])
    else
      env.generateSelfSignedCert key certParams fakeSignature

/-- C4 counterexample: for an AES key, GenerateAttestation fails with
incompatible-algorithm, not unsupported-algorithm as claimed (the same
holds for GenerateSelfSignedCertificate). -/
theorem c4_counterexample :
    (generateAttestation
        ⟨fun _ _ => KmError.OK, fun _ _ => (KmError.OK, []),
         fun _ _ _ => (KmError.OK, [])⟩
        ⟨[intParam Tag.ALGORITHM 32], [], []⟩ [] none []).1 =
      KmError.INCOMPATIBLE_ALGORITHM ∧
    KmError.INCOMPATIBLE_ALGORITHM ≠ KmError.UNSUPPORTED_ALGORITHM := by
  decide

/-- C4 (amended): for a key algorithm that is neither RSA nor EC,
GetAttestationKey and GetAttestationChain fail with
unsupported-algorithm while GenerateAttestation and
GenerateSelfSignedCertificate fail with incompatible-algorithm, and
none of the four produces any key or chain output. -/
theorem attestation_rejects_non_asymmetric (envA : AttestationEnv)
    (envC : CertEnv) (k : Key) (alg : Nat) (params : List KmParam)
    (attestKey : Option Key) (issuer : List Nat) (fake : Bool)
    (halg : findTagValue (keyAuthorizations k) Tag.ALGORITHM = some alg)
    (h1 : alg ≠ KM_ALGORITHM_RSA) (h2 : alg ≠ KM_ALGORITHM_EC) :
    getAttestationKey envA alg = (KmError.UNSUPPORTED_ALGORITHM, []) ∧
    getAttestationChain envA alg = (KmError.UNSUPPORTED_ALGORITHM, []) ∧
    generateAttestation envC k params attestKey issuer =
      (KmError.INCOMPATIBLE_ALGORITHM, []) ∧
    generateSelfSignedCertificate envC k params fake =
      (KmError.INCOMPATIBLE_ALGORITHM, []) := by
  have hslot : keySlotForAlgorithm alg = none := by
    simp [keySlotForAlgorithm, h1, h2]
  refine ⟨?_, ?_, ?_, ?_⟩
  · simp [getAttestationKey, hslot]
  · simp [getAttestationChain, hslot]
  · simp [generateAttestation, halg, h1, h2]
  · simp [generateSelfSignedCertificate, halg, h1, h2]

/-- C4 witness: the amended statement at a concrete HMAC key and
trivial collaborator environments. -/
theorem attestation_rejects_non_asymmetric_witness :
    getAttestationKey
        ⟨true, fun _ => (KmError.OK, [1]), fun _ => (KmError.OK, [[1]]),
         false, fun _ => (KmError.OK, []), fun _ => (KmError.OK, [])⟩ 128 =
      (KmError.UNSUPPORTED_ALGORITHM, []) ∧
    getAttestationChain
        ⟨true, fun _ => (KmError.OK, [1]), fun _ => (KmError.OK, [[1]]),
         false, fun _ => (KmError.OK, []), fun _ => (KmError.OK, [])⟩ 128 =
      (KmError.UNSUPPORTED_ALGORITHM, []) ∧
    generateAttestation
        ⟨fun _ _ => KmError.OK, fun _ _ => (KmError.OK, []),
         fun _ _ _ => (KmError.OK, [])⟩
        ⟨[intParam Tag.ALGORITHM 128], [], []⟩ [] none [] =
      (KmError.INCOMPATIBLE_ALGORITHM, []) ∧
    generateSelfSignedCertificate
        ⟨fun _ _ => KmError.OK, fun _ _ => (KmError.OK, []),
         fun _ _ _ => (KmError.OK, [])⟩
        ⟨[intParam Tag.ALGORITHM 128], [], []⟩ [] false =
      (KmError.INCOMPATIBLE_ALGORITHM, []) :=
  attestation_rejects_non_asymmetric
    ⟨true, fun _ => (KmError.OK, [1]), fun _ => (KmError.OK, [[1]]),
     false, fun _ => (KmError.OK, []), fun _ => (KmError.OK, [])⟩
    ⟨fun _ _ => KmError.OK, fun _ _ => (KmError.OK, []),
     fun _ _ _ => (KmError.OK, [])⟩
    ⟨[intParam Tag.ALGORITHM 128], [], []⟩ 128 [] none [] false
    (by decide) (by decide) (by decide)

/-! ## KeyBlobCodec: ParseKeyBlob and CreateAuthEncryptedKeyBlob -/

/-- auth_encrypted_blob_format value of the legacy AES-OCB scheme. -/
def AES_OCB : Nat := 0

/-- auth_encrypted_blob_format value of the current AEAD scheme. -/
def AES_GCM_WITH_SW_ENFORCED : Nat := 1

/-- Result of DeserializeAuthEncryptedBlob: encryption format, the
AEAD material, and the serialized enforcement sets. -/
structure DeserializedKey where
  format : Nat
  iv : List Nat
  ciphertext : List Nat
  tag : List Nat
  hwEnforced : List KmParam
  swEnforced : List KmParam
  deriving DecidableEq, Repr

/-- Result of EncryptKey: the EncryptedKey struct handed to
SerializeAuthEncryptedBlob. -/
structure EncryptedKeyData where
  format : Nat
  iv : List Nat
  ciphertext : List Nat
  tag : List Nat
  deriving DecidableEq, Repr

/-- Key factories held by the context, one per algorithm. -/
inductive KeyFactoryKind where
  | rsa
  | ec
  | aes
  | hmac
  | tripleDes
  deriving DecidableEq, Repr

/-- TrustyKeymasterContext::GetKeyFactory: dispatch on the numeric
algorithm value; none models the nullptr default branch. -/
def getKeyFactory (algorithm : Nat) : Option KeyFactoryKind :=
  if algorithm = KM_ALGORITHM_RSA then some KeyFactoryKind.rsa
  else if algorithm = KM_ALGORITHM_EC then some KeyFactoryKind.ec
  else if algorithm = KM_ALGORITHM_AES then some KeyFactoryKind.aes
  else if algorithm = KM_ALGORITHM_HMAC then some KeyFactoryKind.hmac
  else if algorithm = KM_ALGORITHM_TRIPLE_DES then some KeyFactoryKind.tripleDes
  else none

/-- External collaborators of the key-blob codec: the blob
serializer/deserializer, the hardware master-key derivation, the AEAD
primitives and the per-algorithm key loaders.  Each is an arbitrary
function so the theorems hold for every collaborator behaviour. -/
structure CryptoEnv where
  deserializeBlob : List Nat → Except KmError DeserializedKey
  deriveMasterKey : Except KmError (List Nat)
  decryptKey : DeserializedKey → List KmParam → List Nat →
    Except KmError (List Nat)
  loadKey : KeyFactoryKind → List Nat → List KmParam → List KmParam →
    List KmParam → Except KmError Key
  encryptKey : List Nat → Nat → List KmParam → List KmParam →
    List KmParam → List Nat → Except KmError EncryptedKeyData
  serializeBlob : EncryptedKeyData → List KmParam → List KmParam →
    Except KmError (List Nat)

/-- Raw byte value of a keymaster_verified_boot_t, as captured by the
reinterpret_cast in BuildHiddenAuthorizations. -/
def vbStateCode : VbState → Nat
  | VbState.verified => 0
  | VbState.selfSigned => 1
  | VbState.unverified => 2
  | VbState.failed => 3

/-- GetTagValue for a blob-typed tag: payload of the first entry
bearing the tag. -/
def findTagBlob : List KmParam → Tag → Option (List Nat)
  | [], _ => none
  | p :: rest, t => if p.tag = t then some p.blob else findTagBlob rest t

/-- TrustyKeymasterContext::BuildHiddenAuthorizations: application id
and data when present, then the three fixed-order ROOT_OF_TRUST
entries (boot key bytes, boot state byte, device-locked byte).  The
trailing is_valid translation cannot fail in this embedding. -/
def buildHiddenAuthorizations (rot : RootOfTrustState)
    (inputSet : List KmParam) : List KmParam :=
  (match findTagBlob inputSet Tag.APPLICATION_ID with
    | some b => [blobParam Tag.APPLICATION_ID b]
    | none => []) ++
  (match findTagBlob inputSet Tag.APPLICATION_DATA with
    | some b => [blobParam Tag.APPLICATION_DATA b]
    | none => []) ++
  [blobParam Tag.ROOT_OF_TRUST rot.verifiedBootKey,
   blobParam Tag.ROOT_OF_TRUST [vbStateCode rot.verifiedBootState],
   blobParam Tag.ROOT_OF_TRUST [if rot.deviceLocked then 1 else 0]]

/-- Seven magic bytes of the keystore km_compat blob prefix
(the ASCII codes of pKMblob). -/
def kKeystoreKeyBlobMagic : List Nat := [112, 75, 77, 98, 108, 111, 98]

/-- Offset of the type byte after the magic. -/
def kKeystoreKeyTypeOffset : Nat := 7

/-- Total size of the legacy compatibility prefix. -/
def kKeystoreKeyBlobPrefixSize : Nat := 8

/-- Prefix-detection and deserialization step at the top of
ParseKeyBlob: a blob long enough and starting with the magic is
dispatched on its type byte (1 rejected, 0 stripped and deserialized,
anything else rejected); any other blob is deserialized as is. -/
def deserializeStep (env : CryptoEnv) (blob : List Nat) :
    Except KmError DeserializedKey :=
  if kKeystoreKeyBlobPrefixSize ≤ blob.length ∧
      blob.take kKeystoreKeyBlobMagic.length = kKeystoreKeyBlobMagic then
    let keyType := (blob.drop kKeystoreKeyTypeOffset).headI
    if keyType = 1 then Except.error KmError.INVALID_KEY_BLOB
    else if keyType = 0 then
      env.deserializeBlob (blob.drop kKeystoreKeyBlobPrefixSize)
    else Except.error KmError.INVALID_KEY_BLOB
  else
    env.deserializeBlob blob

/-- TrustyKeymasterContext::ParseKeyBlob.  Returns the parse outcome
together with the number of increments of the static AES-OCB
diagnostic counter performed by this call (the only effect of the
allow_ocb flag: the rejection of legacy-format blobs is commented out
in the source).  Where the source would call LoadKey through a null
factory pointer (an algorithm value outside the factory switch) the
embedding returns the null-pointer error code. -/
def parseKeyBlob (env : CryptoEnv) (rot : RootOfTrustState) (blob : List Nat)
    (additionalParams : List KmParam) (allowOcb : Bool) :
    Except KmError Key × Nat :=
  match deserializeStep env blob with
  | Except.error e => (Except.error e, 0)
  | Except.ok dk =>
    let ocbBump := if dk.format = AES_OCB ∧ allowOcb = false then 1 else 0
    let result : Except KmError Key :=
      match env.deriveMasterKey with
      | Except.error e => Except.error e
      | Except.ok masterKey =>
        let hidden := buildHiddenAuthorizations rot additionalParams
        match env.decryptKey dk hidden masterKey with
        | Except.error e => Except.error e
        | Except.ok keyMaterial =>
          match findTagValue dk.hwEnforced Tag.ALGORITHM with
          | none => Except.error KmError.INVALID_KEY_BLOB
          | some algorithm =>
            match getKeyFactory algorithm with
            | none => Except.error KmError.UNEXPECTED_NULL_POINTER
            | some factory =>
              env.loadKey factory keyMaterial additionalParams
                dk.hwEnforced dk.swEnforced
    (result, ocbBump)

/-- TrustyKeymasterContext::CreateAuthEncryptedKeyBlob: hidden
authorizations from the key description, master key derivation, AEAD
encryption under the fixed current format, then serialization. -/
def createAuthEncryptedKeyBlob (env : CryptoEnv) (rot : RootOfTrustState)
    (keyDescription : List KmParam) (keyMaterial : List Nat)
    (hwEnforced swEnforced : List KmParam) : Except KmError (List Nat) :=
  let hidden := buildHiddenAuthorizations rot keyDescription
  match env.deriveMasterKey with
  | Except.error e => Except.error e
  | Except.ok masterKey =>
    match env.encryptKey keyMaterial AES_GCM_WITH_SW_ENFORCED hwEnforced
        swEnforced hidden masterKey with
    | Except.error e => Except.error e
    | Except.ok encryptedKey =>
      env.serializeBlob encryptedKey hwEnforced swEnforced

theorem deserializeStep_prefixed (env : CryptoEnv) (b : Nat)
    (rest : List Nat) :
    deserializeStep env (kKeystoreKeyBlobMagic ++ b :: rest) =
      (if b = 1 then Except.error KmError.INVALID_KEY_BLOB
       else if b = 0 then env.deserializeBlob rest
       else Except.error KmError.INVALID_KEY_BLOB) := by
  have hguard : kKeystoreKeyBlobPrefixSize ≤
      (kKeystoreKeyBlobMagic ++ b :: rest).length ∧
      (kKeystoreKeyBlobMagic ++ b :: rest).take kKeystoreKeyBlobMagic.length =
        kKeystoreKeyBlobMagic := by
    constructor
    · simp [kKeystoreKeyBlobMagic, kKeystoreKeyBlobPrefixSize]
    · rfl
  have hdrop7 : (kKeystoreKeyBlobMagic ++ b :: rest).drop kKeystoreKeyTypeOffset =
      b :: rest := rfl
  have hdrop8 : (kKeystoreKeyBlobMagic ++ b :: rest).drop kKeystoreKeyBlobPrefixSize =
      rest := rfl
  unfold deserializeStep
  rw [if_pos hguard]
  simp only [hdrop7, hdrop8, List.headI_cons]

theorem deserializeStep_unprefixed (env : CryptoEnv) (blob : List Nat)
    (h : ¬(kKeystoreKeyBlobPrefixSize ≤ blob.length ∧
        blob.take kKeystoreKeyBlobMagic.length = kKeystoreKeyBlobMagic)) :
    deserializeStep env blob = env.deserializeBlob blob := by
  unfold deserializeStep
  rw [if_neg h]

/-- Collaborator environment used by the concrete witnesses: the
deserializer returns the given enforcement sets and the requested
format, decryption returns the stored ciphertext, and the loader packs
the sets and material into a Key. -/
def sampleCryptoEnv (format : Nat) (hw sw : List KmParam) : CryptoEnv :=
  ⟨fun b => Except.ok ⟨format, [], b, [], hw, sw⟩,
   Except.ok [9],
   fun dk _ _ => Except.ok dk.ciphertext,
   fun _ material _ hw sw => Except.ok ⟨hw, sw, material⟩,
   fun material fmt _ _ _ _ => Except.ok ⟨fmt, [], material, []⟩,
   fun ek _ _ => Except.ok ek.ciphertext⟩

/-- Root-of-trust state used by the concrete witnesses. -/
def sampleRot : RootOfTrustState := ⟨true, VbState.verified, false, [1], [2]⟩

/-- Witness environment whose deserializer reports the current AEAD
format and a minimal RSA hw_enforced set. -/
def sampleEnvGcm : CryptoEnv :=
  sampleCryptoEnv AES_GCM_WITH_SW_ENFORCED [intParam Tag.ALGORITHM 1] []

/-- Witness environment whose deserializer reports the legacy AES-OCB
format. -/
def sampleEnvOcb : CryptoEnv :=
  sampleCryptoEnv AES_OCB [intParam Tag.ALGORITHM 1] []

/-- C3: a blob that deserializes to the legacy AES-OCB format is not
rejected when allow_ocb is false: the parse outcome is identical to
the allow_ocb = true run (the format rejection is commented out in the
source, so master-key derivation and decryption proceed as if the
format were allowed), and the only difference is one bump of the
diagnostic counter. -/
theorem parseKeyBlob_accepts_legacy_format (env : CryptoEnv)
    (rot : RootOfTrustState) (blob : List Nat) (params : List KmParam)
    (dk : DeserializedKey)
    (hdes : deserializeStep env blob = Except.ok dk)
    (hfmt : dk.format = AES_OCB) :
    (parseKeyBlob env rot blob params false).1 =
      (parseKeyBlob env rot blob params true).1 ∧
    (parseKeyBlob env rot blob params false).2 = 1 ∧
    (parseKeyBlob env rot blob params true).2 = 0 := by
  unfold parseKeyBlob
  rw [hdes]
  simp [hfmt]

/-- C3 witness: the legacy-format acceptance at a concrete
environment and blob. -/
theorem parseKeyBlob_accepts_legacy_format_witness :
    (parseKeyBlob sampleEnvOcb sampleRot [7] [] false).1 =
      (parseKeyBlob sampleEnvOcb sampleRot [7] [] true).1 ∧
    (parseKeyBlob sampleEnvOcb sampleRot [7] [] false).2 = 1 ∧
    (parseKeyBlob sampleEnvOcb sampleRot [7] [] true).2 = 0 :=
  parseKeyBlob_accepts_legacy_format sampleEnvOcb sampleRot [7] []
    ⟨AES_OCB, [], [7], [], [intParam Tag.ALGORITHM 1], []⟩ rfl rfl

/-- C5: legacy-prefix dispatch of ParseKeyBlob.  A magic-prefixed blob
with type byte 0 is stripped and its remaining bytes deserialized
exactly as an unprefixed blob would be — so whenever the remaining
bytes do not themselves start with the prefix, the whole call equals
the call on the remaining bytes; type byte 1 always fails with
invalid-key-blob; any other type byte also fails with
invalid-key-blob. -/
theorem parseKeyBlob_prefix_dispatch (env : CryptoEnv)
    (rot : RootOfTrustState) (params : List KmParam) (allow : Bool)
    (rest : List Nat) (b : Nat) :
    (deserializeStep env (kKeystoreKeyBlobMagic ++ 0 :: rest) =
      env.deserializeBlob rest) ∧
    (¬(kKeystoreKeyBlobPrefixSize ≤ rest.length ∧
        rest.take kKeystoreKeyBlobMagic.length = kKeystoreKeyBlobMagic) →
      parseKeyBlob env rot (kKeystoreKeyBlobMagic ++ 0 :: rest) params allow =
        parseKeyBlob env rot rest params allow) ∧
    (parseKeyBlob env rot (kKeystoreKeyBlobMagic ++ 1 :: rest) params allow =
      (Except.error KmError.INVALID_KEY_BLOB, 0)) ∧
    (b ≠ 0 → b ≠ 1 →
      parseKeyBlob env rot (kKeystoreKeyBlobMagic ++ b :: rest) params allow =
        (Except.error KmError.INVALID_KEY_BLOB, 0)) := by
  refine ⟨?_, ?_, ?_, ?_⟩
  · rw [deserializeStep_prefixed]
    simp
  · intro h
    unfold parseKeyBlob
    rw [deserializeStep_prefixed, deserializeStep_unprefixed env rest h]
    simp
  · unfold parseKeyBlob
    rw [deserializeStep_prefixed]
    simp
  · intro h0 h1
    unfold parseKeyBlob
    rw [deserializeStep_prefixed]
    simp [h0, h1]

/-- C5 witness: the three prefix behaviours at a concrete environment,
remaining bytes [3] (which carry no prefix of their own) and the
stray type byte 5. -/
theorem parseKeyBlob_prefix_dispatch_witness :
    (deserializeStep sampleEnvGcm (kKeystoreKeyBlobMagic ++ 0 :: [3]) =
      sampleEnvGcm.deserializeBlob [3]) ∧
    (parseKeyBlob sampleEnvGcm sampleRot (kKeystoreKeyBlobMagic ++ 0 :: [3])
        [] true = parseKeyBlob sampleEnvGcm sampleRot [3] [] true) ∧
    (parseKeyBlob sampleEnvGcm sampleRot (kKeystoreKeyBlobMagic ++ 1 :: [3])
        [] true = (Except.error KmError.INVALID_KEY_BLOB, 0)) ∧
    (parseKeyBlob sampleEnvGcm sampleRot (kKeystoreKeyBlobMagic ++ 5 :: [3])
        [] true = (Except.error KmError.INVALID_KEY_BLOB, 0)) := by
  have h := parseKeyBlob_prefix_dispatch sampleEnvGcm sampleRot [] true [3] 5
  exact ⟨h.1, h.2.1 (by decide), h.2.2.1, h.2.2.2 (by decide) (by decide)⟩

/-! ## KeyUpgradeEngine: UpgradeKeyBlob -/

/-- UpgradeIntegerTag (anonymous namespace).  Acts on the first entry
bearing the tag: absent means append the new value at the end and mark
changed; a stored value above the new one means failure (none); a
different stored value is overwritten in place and marked changed; an
equal stored value leaves everything alone.  The pair carries the set
and the running set_changed flag. -/
def upgradeIntegerTag (tag : Tag) (value : Nat) :
    List KmParam → Bool → Option (List KmParam × Bool)
  | [], _ => some ([intParam tag value], true)
  | p :: rest, changed =>
    if p.tag = tag then
      if value < p.integer then none
      else if p.integer ≠ value then some (⟨p.tag, value, p.blob⟩ :: rest, true)
      else some (p :: rest, changed)
    else
      match upgradeIntegerTag tag value rest changed with
      | none => none
      | some (rest2, ch) => some (p :: rest2, ch)

/-- Zero-boot-version special case inside UpgradeKeyBlob: if
sw_enforced holds an OS_VERSION entry whose value differs from the
(zero) boot OS version, overwrite it in place and report a change. -/
def zeroSwOsVersion (bootOsVersion : Nat) :
    List KmParam → List KmParam × Bool
  | [] => ([], false)
  | p :: rest =>
    if p.tag = Tag.OS_VERSION then
      if p.integer ≠ bootOsVersion then
        (⟨p.tag, bootOsVersion, p.blob⟩ :: rest, true)
      else (p :: rest, false)
    else
      let (rest2, ch) := zeroSwOsVersion bootOsVersion rest
      (p :: rest2, ch)

/-- TrustyKeymasterContext::UpgradeKeyBlob.  Parses with legacy-format
tolerance, applies the zero-boot-version rewrite to sw_enforced, then
upgrades OS_VERSION and OS_PATCHLEVEL in hw_enforced; a downgrade in
either aborts with invalid-argument; with no change at all the call
succeeds without producing a blob (ok none); otherwise the unchanged
key material is re-encrypted under the new sets (ok some blob). -/
def upgradeKeyBlob (env : CryptoEnv) (rot : RootOfTrustState)
    (vs : VersionState) (keyToUpgrade : List Nat)
    (upgradeParams : List KmParam) : Except KmError (Option (List Nat)) :=
  match (parseKeyBlob env rot keyToUpgrade upgradeParams true).1 with
  | Except.error e => Except.error e
  | Except.ok key =>
    let swPass : List KmParam × Bool :=
      if vs.bootOsVersion = 0 then zeroSwOsVersion vs.bootOsVersion key.swEnforced
      else (key.swEnforced, false)
    match upgradeIntegerTag Tag.OS_VERSION vs.bootOsVersion
        key.hwEnforced swPass.2 with
    | none => Except.error KmError.INVALID_ARGUMENT
    | some hwPass1 =>
      match upgradeIntegerTag Tag.OS_PATCHLEVEL vs.bootOsPatchlevel
          hwPass1.1 hwPass1.2 with
      | none => Except.error KmError.INVALID_ARGUMENT
      | some hwPass2 =>
        if hwPass2.2 = false then Except.ok none
        else
          match createAuthEncryptedKeyBlob env rot upgradeParams
              key.keyMaterial hwPass2.1 swPass.1 with
          | Except.error e => Except.error e
          | Except.ok blob => Except.ok (some blob)

theorem upgradeIntegerTag_downgrade (tag : Tag) (value v : Nat)
    (set : List KmParam) (changed : Bool)
    (hfind : findTagValue set tag = some v) (hlt : value < v) :
    upgradeIntegerTag tag value set changed = none := by
  induction set generalizing changed with
  | nil => simp [findTagValue] at hfind
  | cons p rest ih =>
    by_cases hp : p.tag = tag
    · rw [findTagValue, if_pos hp] at hfind
      obtain rfl : p.integer = v := Option.some_injective _ hfind
      simp [upgradeIntegerTag, hp, hlt]
    · rw [findTagValue, if_neg hp] at hfind
      simp [upgradeIntegerTag, hp, ih _ hfind]

theorem upgradeIntegerTag_equal (tag : Tag) (value : Nat)
    (set : List KmParam) (changed : Bool)
    (hfind : findTagValue set tag = some value) :
    upgradeIntegerTag tag value set changed = some (set, changed) := by
  induction set generalizing changed with
  | nil => simp [findTagValue] at hfind
  | cons p rest ih =>
    by_cases hp : p.tag = tag
    · rw [findTagValue, if_pos hp] at hfind
      have hv : p.integer = value := Option.some_injective _ hfind
      simp [upgradeIntegerTag, hp, hv]
    · rw [findTagValue, if_neg hp] at hfind
      simp [upgradeIntegerTag, hp, ih _ hfind]

theorem upgradeIntegerTag_preserves_other (tag t2 : Tag) (value : Nat)
    (set set2 : List KmParam) (changed ch : Bool) (hne : t2 ≠ tag)
    (hres : upgradeIntegerTag tag value set changed = some (set2, ch)) :
    findTagValue set2 t2 = findTagValue set t2 := by
  induction set generalizing changed set2 ch with
  | nil =>
    rw [upgradeIntegerTag] at hres
    obtain ⟨rfl, rfl⟩ : [intParam tag value] = set2 ∧ true = ch := by
      simpa using hres
    simp [findTagValue, intParam, hne, Ne.symm hne]
  | cons p rest ih =>
    by_cases hp : p.tag = tag
    · rw [upgradeIntegerTag, if_pos hp] at hres
      by_cases hv : value < p.integer
      · simp [hv] at hres
      · rw [if_neg hv] at hres
        by_cases hne2 : p.integer ≠ value
        · rw [if_pos hne2] at hres
          obtain ⟨rfl, rfl⟩ : (⟨p.tag, value, p.blob⟩ : KmParam) :: rest = set2 ∧
              true = ch := by simpa using hres
          have hpt2 : p.tag ≠ t2 := fun h => hne (h ▸ hp)
          simp [findTagValue, hpt2]
        · rw [if_neg hne2] at hres
          obtain ⟨rfl, rfl⟩ : p :: rest = set2 ∧ changed = ch := by
            simpa using hres
          rfl
    · rw [upgradeIntegerTag, if_neg hp] at hres
      cases hrec : upgradeIntegerTag tag value rest changed with
      | none => rw [hrec] at hres; simp at hres
      | some r =>
        rw [hrec] at hres
        obtain ⟨rfl, rfl⟩ : p :: r.1 = set2 ∧ r.2 = ch := by simpa using hres
        by_cases hpt2 : p.tag = t2
        · simp [findTagValue, hpt2]
        · simp [findTagValue, hpt2, ih r.1 _ r.2 hrec]

theorem zeroSwOsVersion_no_change (bootOsVersion : Nat) (sw : List KmParam)
    (h : findTagValue sw Tag.OS_VERSION = none ∨
      findTagValue sw Tag.OS_VERSION = some bootOsVersion) :
    zeroSwOsVersion bootOsVersion sw = (sw, false) := by
  induction sw with
  | nil => rfl
  | cons p rest ih =>
    by_cases hp : p.tag = Tag.OS_VERSION
    · rw [findTagValue, if_pos hp] at h
      have hv : p.integer = bootOsVersion := by
        rcases h with h | h
        · exact absurd h (by simp)
        · exact Option.some_injective _ h
      simp [zeroSwOsVersion, hp, hv]
    · rw [findTagValue, if_neg hp] at h
      simp [zeroSwOsVersion, hp, ih h]

/-- C2: concrete run of the zero-boot-version path showing the claim
and the source comment are not honoured by the code.  The blob parses
to a key whose hw_enforced carries OS_VERSION 1; with the current boot
OS version 0 the call returns invalid-argument instead of forcing the
stored version to 0 and succeeding, because the special case rewrites
only sw_enforced while SetAuthorizations stores the version in
hw_enforced (second conjunct: a blob built by this context holds
OS_VERSION in hw_enforced). -/
theorem c2_zero_boot_version_divergence :
    upgradeKeyBlob (sampleCryptoEnv AES_GCM_WITH_SW_ENFORCED
        [intParam Tag.ALGORITHM 1, intParam Tag.OS_VERSION 1,
         intParam Tag.OS_PATCHLEVEL 0] []) sampleRot ⟨0, 0⟩ [7] [] =
      Except.error KmError.INVALID_ARGUMENT ∧
    findTagValue (setAuthorizations ⟨false, false⟩ ⟨1, 0⟩
        [intParam Tag.KEY_SIZE 128] 0).2.1 Tag.OS_VERSION = some 1 :=
  ⟨rfl, rfl⟩

/-- C6: with a nonzero current boot OS version, a parseable blob whose
hw_enforced OS version or OS patchlevel is strictly above the current
device value makes UpgradeKeyBlob fail with invalid-argument and
produce no upgraded blob. -/
theorem upgradeKeyBlob_rejects_downgrade (env : CryptoEnv)
    (rot : RootOfTrustState) (vs : VersionState) (blob : List Nat)
    (params : List KmParam) (k : Key)
    (hparse : (parseKeyBlob env rot blob params true).1 = Except.ok k)
    (hboot : vs.bootOsVersion ≠ 0)
    (hdg : (∃ v, findTagValue k.hwEnforced Tag.OS_VERSION = some v ∧
              vs.bootOsVersion < v) ∨
           (∃ v, findTagValue k.hwEnforced Tag.OS_PATCHLEVEL = some v ∧
              vs.bootOsPatchlevel < v)) :
    upgradeKeyBlob env rot vs blob params =
      Except.error KmError.INVALID_ARGUMENT := by
  unfold upgradeKeyBlob
  rw [hparse]
  simp only [if_neg hboot]
  rcases hdg with ⟨v, hv, hlt⟩ | ⟨v, hv, hlt⟩
  · rw [upgradeIntegerTag_downgrade Tag.OS_VERSION vs.bootOsVersion v
      k.hwEnforced false hv hlt]
  · cases hres : upgradeIntegerTag Tag.OS_VERSION vs.bootOsVersion
        k.hwEnforced false with
    | none => rfl
    | some r =>
      obtain ⟨hw1, ch1⟩ := r
      have hpres := upgradeIntegerTag_preserves_other Tag.OS_VERSION
        Tag.OS_PATCHLEVEL vs.bootOsVersion k.hwEnforced hw1 false ch1
        (by decide) hres
      have hv2 : findTagValue hw1 Tag.OS_PATCHLEVEL = some v := by
        rw [hpres]; exact hv
      dsimp only
      rw [upgradeIntegerTag_downgrade Tag.OS_PATCHLEVEL vs.bootOsPatchlevel v
        hw1 ch1 hv2 hlt]

/-- C6 witness: a blob carrying hw_enforced OS_VERSION 5 upgraded on a
device at boot OS version 3 is rejected with invalid-argument. -/
theorem upgradeKeyBlob_rejects_downgrade_witness :
    upgradeKeyBlob (sampleCryptoEnv AES_GCM_WITH_SW_ENFORCED
        [intParam Tag.ALGORITHM 1, intParam Tag.OS_VERSION 5,
         intParam Tag.OS_PATCHLEVEL 0] []) sampleRot ⟨3, 0⟩ [7] [] =
      Except.error KmError.INVALID_ARGUMENT :=
  upgradeKeyBlob_rejects_downgrade
    (sampleCryptoEnv AES_GCM_WITH_SW_ENFORCED
      [intParam Tag.ALGORITHM 1, intParam Tag.OS_VERSION 5,
       intParam Tag.OS_PATCHLEVEL 0] []) sampleRot ⟨3, 0⟩ [7] []
    ⟨[intParam Tag.ALGORITHM 1, intParam Tag.OS_VERSION 5,
      intParam Tag.OS_PATCHLEVEL 0], [], [7]⟩
    rfl (by decide) (Or.inl ⟨5, rfl, by decide⟩)

/-- C7: UpgradeKeyBlob is idempotent.  When the parsed key already
stores the current boot OS version and patchlevel in hw_enforced (and,
in the zero-boot-version case, sw_enforced carries no diverging
OS_VERSION entry — a blob whose stored version equals the boot value
cannot diverge), the call returns success and leaves the upgraded-key
output unset. -/
theorem upgradeKeyBlob_idempotent (env : CryptoEnv) (rot : RootOfTrustState)
    (vs : VersionState) (blob : List Nat) (params : List KmParam) (k : Key)
    (hparse : (parseKeyBlob env rot blob params true).1 = Except.ok k)
    (hv : findTagValue k.hwEnforced Tag.OS_VERSION = some vs.bootOsVersion)
    (hp : findTagValue k.hwEnforced Tag.OS_PATCHLEVEL =
      some vs.bootOsPatchlevel)
    (hsw : vs.bootOsVersion = 0 →
      findTagValue k.swEnforced Tag.OS_VERSION = none ∨
      findTagValue k.swEnforced Tag.OS_VERSION = some vs.bootOsVersion) :
    upgradeKeyBlob env rot vs blob params = Except.ok none := by
  unfold upgradeKeyBlob
  rw [hparse]
  have hswpass : (if vs.bootOsVersion = 0 then
      zeroSwOsVersion vs.bootOsVersion k.swEnforced
      else (k.swEnforced, false)) = (k.swEnforced, false) := by
    by_cases h0 : vs.bootOsVersion = 0
    · rw [if_pos h0, zeroSwOsVersion_no_change _ _ (hsw h0)]
    · rw [if_neg h0]
  simp only [hswpass]
  rw [upgradeIntegerTag_equal Tag.OS_VERSION vs.bootOsVersion
    k.hwEnforced false hv]
  dsimp only
  rw [upgradeIntegerTag_equal Tag.OS_PATCHLEVEL vs.bootOsPatchlevel
    k.hwEnforced false hp]
  rfl

/-- C7 witness: a blob already at boot OS version 3 and patchlevel 4
upgraded on a device at those same values returns success with no new
blob. -/
theorem upgradeKeyBlob_idempotent_witness :
    upgradeKeyBlob (sampleCryptoEnv AES_GCM_WITH_SW_ENFORCED
        [intParam Tag.ALGORITHM 1, intParam Tag.OS_VERSION 3,
         intParam Tag.OS_PATCHLEVEL 4] []) sampleRot ⟨3, 4⟩ [7] [] =
      Except.ok none :=
  upgradeKeyBlob_idempotent
    (sampleCryptoEnv AES_GCM_WITH_SW_ENFORCED
      [intParam Tag.ALGORITHM 1, intParam Tag.OS_VERSION 3,
       intParam Tag.OS_PATCHLEVEL 4] []) sampleRot ⟨3, 4⟩ [7] []
    ⟨[intParam Tag.ALGORITHM 1, intParam Tag.OS_VERSION 3,
      intParam Tag.OS_PATCHLEVEL 4], [], [7]⟩
    rfl rfl rfl (fun h => absurd h (by decide))

/-! ## KeyWrapProtocol: UnwrapKey -/

/-- keymaster_purpose_t value of KM_PURPOSE_ENCRYPT. -/
def KM_PURPOSE_ENCRYPT : Nat := 0

/-- keymaster_purpose_t value of KM_PURPOSE_DECRYPT. -/
def KM_PURPOSE_DECRYPT : Nat := 1

/-- keymaster_purpose_t value of KM_PURPOSE_WRAP. -/
def KM_PURPOSE_WRAP : Nat := 5

/-- keymaster_digest_t value of KM_DIGEST_SHA_2_256. -/
def KM_DIGEST_SHA_2_256 : Nat := 4

/-- keymaster_padding_t value of KM_PAD_NONE. -/
def KM_PAD_NONE : Nat := 1

/-- keymaster_padding_t value of KM_PAD_RSA_OAEP. -/
def KM_PAD_RSA_OAEP : Nat := 2

/-- keymaster_block_mode_t value of KM_MODE_GCM. -/
def KM_MODE_GCM : Nat := 32

/-- Fields produced by parse_wrapped_key from the wrapped-key
container. -/
structure WrappedKeyData where
  iv : List Nat
  transitKey : List Nat
  secureKey : List Nat
  tag : List Nat
  wrappedKeyParams : List KmParam
  wrappedKeyFormat : Nat
  wrappedKeyDescription : List Nat
  deriving DecidableEq, Repr

/-- External collaborators of UnwrapKey: the wrapped-key container
parser, the asymmetric decrypt pipeline on the wrapping key
(CreateOperation, Begin, Finish), and the AES-GCM decrypt pipeline on
the synthetic transport key (LoadKey, CreateOperation, Begin, one
Update, Finish). -/
structure UnwrapEnv where
  parseWrappedKey : List Nat → Except KmError WrappedKeyData
  transitDecrypt : Key → List KmParam → List Nat → Except KmError (List Nat)
  aesGcmDecrypt : List Nat → List KmParam → List KmParam → List Nat →
    List Nat → Except KmError (List Nat)

/-- Fabricated authorizations of the synthetic 256-bit AES transport
key (AuthorizationSetBuilder chain in step 4). -/
def transportKeyAuthorizations (iv : List Nat) : List KmParam :=
  [intParam Tag.ALGORITHM KM_ALGORITHM_AES, intParam Tag.KEY_SIZE 256,
   intParam Tag.PURPOSE KM_PURPOSE_ENCRYPT,
   intParam Tag.PURPOSE KM_PURPOSE_DECRYPT,
   intParam Tag.PADDING KM_PAD_NONE, intParam Tag.BLOCK_MODE KM_MODE_GCM,
   blobParam Tag.NONCE iv, intParam Tag.MIN_MAC_LENGTH 128]

/-- Operation parameters of the GCM decrypt in step 4. -/
def gcmParams (iv : List Nat) : List KmParam :=
  [intParam Tag.PADDING KM_PAD_NONE, intParam Tag.BLOCK_MODE KM_MODE_GCM,
   blobParam Tag.NONCE iv, intParam Tag.MAC_LENGTH 128]

/-- TrustyKeymasterContext::UnwrapKey, the four protocol steps: parse
and validate the wrapping key (purpose, digest and padding of its
stored authorizations, then digest and padding of the caller
parameters), parse the wrapped-key container, decrypt the transit key
and XOR it with the masking key (rejecting a length mismatch), and
AES-GCM-decrypt secure key plus tag with the description blob as
associated data.  Success returns the wrapped-key params, format, and
plaintext key material. -/
def unwrapKey (env : CryptoEnv) (uenv : UnwrapEnv) (rot : RootOfTrustState)
    (wrappedKeyBlob wrappingKeyBlob : List Nat)
    (wrappingKeyParams : List KmParam) (maskingKey : List Nat) :
    Except KmError (List KmParam × Nat × List Nat) :=
  match (parseKeyBlob env rot wrappingKeyBlob wrappingKeyParams false).1 with
  | Except.error e => Except.error e
  | Except.ok wrappingKey =>
    let auths := keyAuthorizations wrappingKey
    if containsTagValue auths Tag.PURPOSE KM_PURPOSE_WRAP = false then
      Except.error KmError.INCOMPATIBLE_PURPOSE
    else if containsTagValue auths Tag.DIGEST KM_DIGEST_SHA_2_256 = false then
      Except.error KmError.INCOMPATIBLE_DIGEST
    else if containsTagValue auths Tag.PADDING KM_PAD_RSA_OAEP = false then
      Except.error KmError.INCOMPATIBLE_PADDING_MODE
    else if containsTagValue wrappingKeyParams Tag.DIGEST
        KM_DIGEST_SHA_2_256 = false then
      Except.error KmError.INCOMPATIBLE_DIGEST
    else if containsTagValue wrappingKeyParams Tag.PADDING
        KM_PAD_RSA_OAEP = false then
      Except.error KmError.INCOMPATIBLE_PADDING_MODE
    else
      match uenv.parseWrappedKey wrappedKeyBlob with
      | Except.error e => Except.error e
      | Except.ok w =>
        match uenv.transitDecrypt wrappingKey wrappingKeyParams
            w.transitKey with
        | Except.error e => Except.error e
        | Except.ok transportKey =>
          if transportKey.length ≠ maskingKey.length then
            Except.error KmError.INVALID_ARGUMENT
          else
            let maskedKey :=
              (transportKey.zip maskingKey).map fun q => q.1 ^^^ q.2
            match uenv.aesGcmDecrypt maskedKey
                (transportKeyAuthorizations w.iv) (gcmParams w.iv)
                w.wrappedKeyDescription (w.secureKey ++ w.tag) with
            | Except.error e => Except.error e
            | Except.ok plaintext =>
              Except.ok (w.wrappedKeyParams, w.wrappedKeyFormat, plaintext)

/-- C9: the UnwrapKey rejections.  With the wrapping key parsed, a
missing wrap purpose yields incompatible-purpose; a missing SHA-2-256
digest or RSA-OAEP padding in the stored authorizations yields
incompatible-digest or incompatible-padding-mode; the same checks on
the caller-supplied operation parameters yield the same codes; and a
masking key whose length differs from the decrypted transport key
yields invalid-argument.  Every rejection is an error return, so no
wrapped-key output is produced. -/
theorem unwrapKey_rejections (env : CryptoEnv) (uenv : UnwrapEnv)
    (rot : RootOfTrustState) (wrappedBlob wrappingBlob : List Nat)
    (params : List KmParam) (maskingKey : List Nat) (wk : Key)
    (hparse : (parseKeyBlob env rot wrappingBlob params false).1 =
      Except.ok wk) :
    (containsTagValue (keyAuthorizations wk) Tag.PURPOSE KM_PURPOSE_WRAP =
        false →
      unwrapKey env uenv rot wrappedBlob wrappingBlob params maskingKey =
        Except.error KmError.INCOMPATIBLE_PURPOSE) ∧
    (containsTagValue (keyAuthorizations wk) Tag.PURPOSE KM_PURPOSE_WRAP =
        true →
      containsTagValue (keyAuthorizations wk) Tag.DIGEST
        KM_DIGEST_SHA_2_256 = false →
      unwrapKey env uenv rot wrappedBlob wrappingBlob params maskingKey =
        Except.error KmError.INCOMPATIBLE_DIGEST) ∧
    (containsTagValue (keyAuthorizations wk) Tag.PURPOSE KM_PURPOSE_WRAP =
        true →
      containsTagValue (keyAuthorizations wk) Tag.DIGEST
        KM_DIGEST_SHA_2_256 = true →
      containsTagValue (keyAuthorizations wk) Tag.PADDING
        KM_PAD_RSA_OAEP = false →
      unwrapKey env uenv rot wrappedBlob wrappingBlob params maskingKey =
        Except.error KmError.INCOMPATIBLE_PADDING_MODE) ∧
    (containsTagValue (keyAuthorizations wk) Tag.PURPOSE KM_PURPOSE_WRAP =
        true →
      containsTagValue (keyAuthorizations wk) Tag.DIGEST
        KM_DIGEST_SHA_2_256 = true →
      containsTagValue (keyAuthorizations wk) Tag.PADDING
        KM_PAD_RSA_OAEP = true →
      containsTagValue params Tag.DIGEST KM_DIGEST_SHA_2_256 = false →
      unwrapKey env uenv rot wrappedBlob wrappingBlob params maskingKey =
        Except.error KmError.INCOMPATIBLE_DIGEST) ∧
    (containsTagValue (keyAuthorizations wk) Tag.PURPOSE KM_PURPOSE_WRAP =
        true →
      containsTagValue (keyAuthorizations wk) Tag.DIGEST
        KM_DIGEST_SHA_2_256 = true →
      containsTagValue (keyAuthorizations wk) Tag.PADDING
        KM_PAD_RSA_OAEP = true →
      containsTagValue params Tag.DIGEST KM_DIGEST_SHA_2_256 = true →
      containsTagValue params Tag.PADDING KM_PAD_RSA_OAEP = false →
      unwrapKey env uenv rot wrappedBlob wrappingBlob params maskingKey =
        Except.error KmError.INCOMPATIBLE_PADDING_MODE) ∧
    (∀ w transportKey,
      containsTagValue (keyAuthorizations wk) Tag.PURPOSE KM_PURPOSE_WRAP =
        true →
      containsTagValue (keyAuthorizations wk) Tag.DIGEST
        KM_DIGEST_SHA_2_256 = true →
      containsTagValue (keyAuthorizations wk) Tag.PADDING
        KM_PAD_RSA_OAEP = true →
      containsTagValue params Tag.DIGEST KM_DIGEST_SHA_2_256 = true →
      containsTagValue params Tag.PADDING KM_PAD_RSA_OAEP = true →
      uenv.parseWrappedKey wrappedBlob = Except.ok w →
      uenv.transitDecrypt wk params w.transitKey = Except.ok transportKey →
      transportKey.length ≠ maskingKey.length →
      unwrapKey env uenv rot wrappedBlob wrappingBlob params maskingKey =
        Except.error KmError.INVALID_ARGUMENT) := by
  refine ⟨?_, ?_, ?_, ?_, ?_, ?_⟩
  · intro h1
    unfold unwrapKey
    rw [hparse]
    simp [h1]
  · intro h1 h2
    unfold unwrapKey
    rw [hparse]
    simp [h1, h2]
  · intro h1 h2 h3
    unfold unwrapKey
    rw [hparse]
    simp [h1, h2, h3]
  · intro h1 h2 h3 h4
    unfold unwrapKey
    rw [hparse]
    simp [h1, h2, h3, h4]
  · intro h1 h2 h3 h4 h5
    unfold unwrapKey
    rw [hparse]
    simp [h1, h2, h3, h4, h5]
  · intro w transportKey h1 h2 h3 h4 h5 hw ht hlen
    unfold unwrapKey
    rw [hparse]
    simp only [h1, h2, h3, h4, h5]
    simp only [hw, ht]
    simp [hlen]

/-- Wrapped-key collaborators for the concrete witnesses: the container
parser yields fixed fields and the transit decrypt yields a two-byte
transport key. -/
def sampleUnwrapEnv : UnwrapEnv :=
  ⟨fun _ => Except.ok ⟨[1], [2], [3], [4], [], 0, [5]⟩,
   fun _ _ _ => Except.ok [9, 9],
   fun _ _ _ _ _ => Except.ok [8]⟩

/-- Witness wrapping key lacking the wrap purpose. -/
def wrapEnvNoPurpose : CryptoEnv :=
  sampleCryptoEnv AES_GCM_WITH_SW_ENFORCED [intParam Tag.ALGORITHM 1] []

/-- Witness wrapping key lacking the SHA-2-256 digest. -/
def wrapEnvNoDigest : CryptoEnv :=
  sampleCryptoEnv AES_GCM_WITH_SW_ENFORCED
    [intParam Tag.ALGORITHM 1, intParam Tag.PURPOSE KM_PURPOSE_WRAP] []

/-- Witness wrapping key lacking the RSA-OAEP padding. -/
def wrapEnvNoPadding : CryptoEnv :=
  sampleCryptoEnv AES_GCM_WITH_SW_ENFORCED
    [intParam Tag.ALGORITHM 1, intParam Tag.PURPOSE KM_PURPOSE_WRAP,
     intParam Tag.DIGEST KM_DIGEST_SHA_2_256] []

/-- Witness wrapping key carrying wrap purpose, SHA-2-256 and
RSA-OAEP. -/
def wrapEnvFull : CryptoEnv :=
  sampleCryptoEnv AES_GCM_WITH_SW_ENFORCED
    [intParam Tag.ALGORITHM 1, intParam Tag.PURPOSE KM_PURPOSE_WRAP,
     intParam Tag.DIGEST KM_DIGEST_SHA_2_256,
     intParam Tag.PADDING KM_PAD_RSA_OAEP] []

/-- Caller parameters requesting SHA-2-256 and RSA-OAEP. -/
def fullOpParams : List KmParam :=
  [intParam Tag.DIGEST KM_DIGEST_SHA_2_256,
   intParam Tag.PADDING KM_PAD_RSA_OAEP]

/-- C9 witness: each rejection at a concrete input — missing wrap
purpose, missing key digest, missing key padding, missing caller
digest, missing caller padding, and a one-byte masking key against a
two-byte transport key. -/
theorem unwrapKey_rejections_witness :
    unwrapKey wrapEnvNoPurpose sampleUnwrapEnv sampleRot [1] [7] [] [] =
      Except.error KmError.INCOMPATIBLE_PURPOSE ∧
    unwrapKey wrapEnvNoDigest sampleUnwrapEnv sampleRot [1] [7] [] [] =
      Except.error KmError.INCOMPATIBLE_DIGEST ∧
    unwrapKey wrapEnvNoPadding sampleUnwrapEnv sampleRot [1] [7] [] [] =
      Except.error KmError.INCOMPATIBLE_PADDING_MODE ∧
    unwrapKey wrapEnvFull sampleUnwrapEnv sampleRot [1] [7] [] [] =
      Except.error KmError.INCOMPATIBLE_DIGEST ∧
    unwrapKey wrapEnvFull sampleUnwrapEnv sampleRot [1] [7]
        [intParam Tag.DIGEST KM_DIGEST_SHA_2_256] [] =
      Except.error KmError.INCOMPATIBLE_PADDING_MODE ∧
    unwrapKey wrapEnvFull sampleUnwrapEnv sampleRot [1] [7] fullOpParams [0] =
      Except.error KmError.INVALID_ARGUMENT := by
  refine ⟨?_, ?_, ?_, ?_, ?_, ?_⟩
  · exact (unwrapKey_rejections wrapEnvNoPurpose sampleUnwrapEnv sampleRot
      [1] [7] [] [] ⟨[intParam Tag.ALGORITHM 1], [], [7]⟩ rfl).1 (by decide)
  · exact (unwrapKey_rejections wrapEnvNoDigest sampleUnwrapEnv sampleRot
      [1] [7] [] []
      ⟨[intParam Tag.ALGORITHM 1, intParam Tag.PURPOSE KM_PURPOSE_WRAP],
       [], [7]⟩ rfl).2.1 (by decide) (by decide)
  · exact (unwrapKey_rejections wrapEnvNoPadding sampleUnwrapEnv sampleRot
      [1] [7] [] []
      ⟨[intParam Tag.ALGORITHM 1, intParam Tag.PURPOSE KM_PURPOSE_WRAP,
        intParam Tag.DIGEST KM_DIGEST_SHA_2_256], [], [7]⟩ rfl).2.2.1
      (by decide) (by decide) (by decide)
  · exact (unwrapKey_rejections wrapEnvFull sampleUnwrapEnv sampleRot
      [1] [7] [] []
      ⟨[intParam Tag.ALGORITHM 1, intParam Tag.PURPOSE KM_PURPOSE_WRAP,
        intParam Tag.DIGEST KM_DIGEST_SHA_2_256,
        intParam Tag.PADDING KM_PAD_RSA_OAEP], [], [7]⟩ rfl).2.2.2.1
      (by decide) (by decide) (by decide) (by decide)
  · exact (unwrapKey_rejections wrapEnvFull sampleUnwrapEnv sampleRot
      [1] [7] [intParam Tag.DIGEST KM_DIGEST_SHA_2_256] []
      ⟨[intParam Tag.ALGORITHM 1, intParam Tag.PURPOSE KM_PURPOSE_WRAP,
        intParam Tag.DIGEST KM_DIGEST_SHA_2_256,
        intParam Tag.PADDING KM_PAD_RSA_OAEP], [], [7]⟩ rfl).2.2.2.2.1
      (by decide) (by decide) (by decide) (by decide) (by decide)
  · exact (unwrapKey_rejections wrapEnvFull sampleUnwrapEnv sampleRot
      [1] [7] fullOpParams [0]
      ⟨[intParam Tag.ALGORITHM 1, intParam Tag.PURPOSE KM_PURPOSE_WRAP,
        intParam Tag.DIGEST KM_DIGEST_SHA_2_256,
        intParam Tag.PADDING KM_PAD_RSA_OAEP], [], [7]⟩ rfl).2.2.2.2.2
      ⟨[1], [2], [3], [4], [], 0, [5]⟩ [9, 9]
      (by decide) (by decide) (by decide) (by decide) (by decide)
      rfl rfl (by decide)

end TrustyKm
